import Mathlib

/-!
Shallow embedding of the request-execution core of the `httpc` HTTP client
(files `httpc.go`, `resolver.go`): the retry round-tripper, its delay
computation and retry-eligibility test, the transport-chain assembly in
`Client.Do`, the request builder's header finalization in
`RequestBuilder.Build`, and the resilient dialer `customDialer.DialContext`.

Conventions of the embedding:
* `time.Duration` (int64 nanoseconds) is modelled as `Int`, with 64-bit
  wraparound applied explicitly (`toInt64`) where the source can overflow.
* Go errors are modelled by the inductive `GoError`; `errors.As`/`errors.Is`
  traversal of the wrapping chain is modelled by `isNetworkError`/`errIs`.
* Network and body I/O is modelled by per-attempt outcome functions supplied
  as parameters (the transport's `RoundTrip` result for each attempt index,
  the `GetBody` result for each attempt index, and the observed state of the
  request context at each of the two points where the source polls it).
-/

namespace Httpc

/-- Reduce an integer into the range of Go's int64, `[-2^63, 2^63)`,
modelling two's-complement wraparound. -/
def toInt64 (n : Int) : Int :=
  (n + 2 ^ 63) % 2 ^ 64 - 2 ^ 63

/-- Model of the Go error values that appear in the execution pipeline.
`wrappedRequestTimeout e` models `fmt.Errorf("%w: %v", ErrRequestTimeout, e)`
(only `ErrRequestTimeout` stays in the unwrap chain; `e` is stringified);
`bodyRegenError a e` models the `fmt.Errorf` produced when `GetBody` fails
before retry attempt `a` (it wraps `e`); `noAddrs host` models the
`fmt.Errorf` of `resolver.go` for a successful resolution with zero
addresses; `dialFailure addr` stands for a concrete connection error of the
default dialer, used in instantiations. -/
inductive GoError where
  | netConnFailure
  | netIOTimeout
  | netDNSNotFound
  | malformedURL
  | ctxCanceled
  | ctxDeadlineExceeded
  | errRequestTimeout
  | errMaxRetriesExceeded
  | wrappedRequestTimeout (orig : GoError)
  | bodyRegenError (attempt : Nat) (inner : GoError)
  | noAddrs (host : String)
  | dialFailure (addr : String)
  deriving DecidableEq, Repr

/-- Whether the error value itself implements the `net.Error` interface
(the type assertion `err.(net.Error)`).  `*net.OpError`, DNS errors and
timeouts do; `context.DeadlineExceeded` also does (it has `Timeout()` and
`Temporary()` methods); sentinel errors created by `errors.New` and the
`fmt.Errorf` wrappers do not. -/
def netErrorKind : GoError → Bool
  | .netConnFailure => true
  | .netIOTimeout => true
  | .netDNSNotFound => true
  | .ctxDeadlineExceeded => true
  | _ => false

/-- `net.Error.Timeout()` for the values on which the source calls it. -/
def netTimeout : GoError → Bool
  | .netIOTimeout => true
  | .ctxDeadlineExceeded => true
  | _ => false

/-- `isNetworkError` of `httpc.go`: `errors.As(err, &netErr)` for
`netErr net.Error`, i.e. a search of the unwrap chain for a value
implementing `net.Error`.  `wrappedRequestTimeout` unwraps to the sentinel
`ErrRequestTimeout` (not a `net.Error`); `bodyRegenError` unwraps to its
inner error. -/
def isNetworkError : GoError → Bool
  | .netConnFailure => true
  | .netIOTimeout => true
  | .netDNSNotFound => true
  | .ctxDeadlineExceeded => true
  | .bodyRegenError _ inner => isNetworkError inner
  | _ => false

/-- `errors.Is e target` over the modelled unwrap chains. -/
def errIs (e target : GoError) : Bool :=
  e == target ||
    match e with
    | .wrappedRequestTimeout _ => GoError.errRequestTimeout == target
    | .bodyRegenError _ inner => errIs inner target
    | _ => false

/-- `Client.wrapError`: wrap context-deadline and network-timeout errors in
`ErrRequestTimeout`; return every other error unchanged.  The second test is
the type assertion `err.(net.Error)` followed by `netErr.Timeout()`, so it
looks only at the top-level value. -/
def wrapError (e : GoError) : GoError :=
  if errIs e .ctxDeadlineExceeded then .wrappedRequestTimeout e
  else if netErrorKind e && netTimeout e then .wrappedRequestTimeout e
  else e

/-- The slice of `*http.Response` consulted by the retry logic: the status
code and the `Retry-After` header (`none` models an absent header, which
`Header.Get` reports as `""`). -/
structure Response where
  statusCode : Int
  retryAfter : Option String
  deriving DecidableEq, Repr

/-- `RetryOptions` of `httpc.go`.  `MaxAttempts` is a Go `int`; the retry
round-tripper is installed only when it is positive, and the loop bound
`attempt <= MaxAttempts` makes only non-negative values meaningful, so it is
modelled as `Nat`.  Delays are int64 nanoseconds. -/
structure RetryOptions where
  maxAttempts : Nat
  baseDelay : Int
  maxDelay : Int
  retryStatuses : List Int
  jitter : Bool

/-- The fields of `Client` consulted by the modelled operations.
`jitterScale delay attempt` abstracts the floating-point expression
`time.Duration(float64(delay) * (0.8 + 0.4*float64(attempt)))` of
`calculateExponentialBackoff`; float64 arithmetic is outside this
embedding, and every claim instantiates `jitter = false`, on which path
`jitterScale` is never consulted. -/
structure Client where
  retryOpts : RetryOptions
  jitterScale : Int → Nat → Int
  userAgent : String

/-- Decimal parse of a nonempty digit string, the value denoted by the
numeral. -/
def decimalNat : List Char → Option Nat → Option Nat
  | [], acc => acc
  | c :: cs, acc =>
    if c.isDigit then
      decimalNat cs (some ((acc.getD 0) * 10 + (c.toNat - 48)))
    else none

/-- `parseRetryAfter` of `httpc.go` restricted to its integer-seconds form:
`time.ParseDuration(retryAfter + "s")` on a plain decimal string yields that
many seconds (converted here to nanoseconds).  The HTTP-date branch (which
consults the real clock) and sign- or unit-carrying strings are outside
this embedding; every claim instantiates only plain decimal values or an
absent header. -/
def parseRetryAfter (retryAfter : String) : Option Int :=
  (decimalNat retryAfter.data none).map (fun n => (n : Int) * 1000000000)

/-- `Client.calculateRetryAfter`: `0` for a nil response; the parsed
`Retry-After` value when the header is present and parses; otherwise
`BaseDelay`.  An empty header value behaves like an absent header in the
source (`Header.Get` returns `""` for both and the source tests
`retryAfter != ""`); in the model `some ""` fails to parse and also falls
through to `BaseDelay`. -/
def calculateRetryAfter (c : Client) (resp : Option Response) : Int :=
  match resp with
  | none => 0
  | some r =>
    match r.retryAfter with
    | some s =>
      match parseRetryAfter s with
      | some d => d
      | none => c.retryOpts.baseDelay
    | none => c.retryOpts.baseDelay

/-- `Client.calculateExponentialBackoff`:
`delay := BaseDelay * time.Duration(1<<uint(attempt))`, clamped to
`MaxDelay`, then optionally scaled by the jitter factor.  Go's variable
shift `1 << u` on int64 yields `toInt64 (2 ^ u)` for every `u ≥ 0`
(including `0` for `u ≥ 64`), and the multiplication wraps in int64. -/
def calculateExponentialBackoff (c : Client) (attempt : Nat) (jitter : Bool) : Int :=
  let delay := toInt64 (c.retryOpts.baseDelay * toInt64 ((2 : Int) ^ attempt))
  let delay := if delay > c.retryOpts.maxDelay then c.retryOpts.maxDelay else delay
  if jitter then c.jitterScale delay attempt else delay

/-- `Client.shouldRetry`: a non-nil error is retryable iff it is a network
error (`errors.As(err, &net.Error)`); otherwise the response must be non-nil
with a status code listed in `RetryStatuses`. -/
def shouldRetry (c : Client) (resp : Option Response) (err : Option GoError) : Bool :=
  match err with
  | some e => isNetworkError e
  | none =>
    c.retryOpts.retryStatuses.any fun status =>
      match resp with
      | some r => r.statusCode == status
      | none => false

/-- The delay selection of `retryRoundTripper` (httpc.go:798-802 /
part_001:790-794): `delay := calculateRetryAfter(resp)`, and only when that
is `≤ 0` fall back to `calculateExponentialBackoff(attempt, Jitter)`. -/
def retryDelay (c : Client) (resp : Option Response) (attempt : Nat) : Int :=
  let delay := calculateRetryAfter c resp
  if delay ≤ 0 then calculateExponentialBackoff c attempt c.retryOpts.jitter else delay

/-- The slice of `*http.Request` consulted by the retry round-tripper.
`hasBody` records whether the request carries a body (`req.Body != nil`);
the retry loop never consults it.  `getBody` models `req.GetBody`: `none`
when the capability is absent, otherwise a function giving the outcome of
the `GetBody()` call made before each retry attempt (`none` = a fresh body
was obtained, `some e` = the call failed with `e`). -/
structure Request where
  hasBody : Bool
  getBody : Option (Nat → Option GoError)

/-- Observable outcome of one execution of the retry round-tripper:
the returned response and error, the number of calls made to the next
round-tripper, and the backoff delays that were waited out in full. -/
structure RunResult where
  resp : Option Response
  err : Option GoError
  calls : Nat
  delays : List Int
  deriving DecidableEq, Repr

/-- The code after the loop of `retryRoundTripper`:
`if lastErr != nil { return lastResp, c.wrapError(lastErr) };
return lastResp, nil`. -/
def finishRun (lastResp : Option Response) (lastErr : Option GoError)
    (calls : Nat) (delays : List Int) : RunResult :=
  match lastErr with
  | some e => ⟨lastResp, some (wrapError e), calls, delays⟩
  | none => ⟨lastResp, none, calls, delays⟩

/-- One execution of the loop body of `retryRoundTripper` starting at
iteration `attempt`, with `fuel` iterations left before the loop condition
`attempt <= MaxAttempts` fails (`fuel = MaxAttempts + 1 - attempt`).

Parameters model the I/O of one run: `rt a` is the result of
`next.RoundTrip` on attempt `a`; `ctxPre a` is whether the pre-attempt
`select` observes the context as done; `ctxWait a` is whether the wait
`select` after attempt `a` observes the context as done before the timer
fires; `ctxErr` is `req.Context().Err()` when done.  Early `return`
statements bypass the post-loop wrapping (`finishRun`); a `break` falls
through to it. -/
def retryLoopFrom (c : Client) (req : Request)
    (rt : Nat → Option Response × Option GoError)
    (ctxPre ctxWait : Nat → Bool) (ctxErr : GoError)
    (lastResp : Option Response) (lastErr : Option GoError)
    (calls : Nat) (delays : List Int) (attempt fuel : Nat) : RunResult :=
  match fuel with
  | 0 => finishRun lastResp lastErr calls delays
  | fuel' + 1 =>
    let regen : Option (Option GoError) :=
      if attempt > 0 then
        match req.getBody with
        | none => none
        | some f => some (f attempt)
      else some none
    match regen with
    | none => finishRun lastResp lastErr calls delays
    | some (some e) => ⟨none, some (.bodyRegenError attempt e), calls, delays⟩
    | some none =>
      if ctxPre attempt then
        ⟨none, some (wrapError ctxErr), calls, delays⟩
      else
        let out := rt attempt
        let resp := out.1
        let err := out.2
        let calls := calls + 1
        if ¬ shouldRetry c resp err then
          finishRun resp err calls delays
        else if attempt ≥ c.retryOpts.maxAttempts then
          finishRun resp (some .errMaxRetriesExceeded) calls delays
        else
          let delay := retryDelay c resp attempt
          if ctxWait attempt then
            ⟨none, some (wrapError ctxErr), calls, delays⟩
          else
            retryLoopFrom c req rt ctxPre ctxWait ctxErr resp err calls
              (delays ++ [delay]) (attempt + 1) fuel'

/-- `Client.retryRoundTripper` applied to a request: run the loop
`for attempt := 0; attempt <= MaxAttempts; attempt++`.  The local
`bodyReaderFunc` of the source is exactly `req.GetBody` (or absent), so it
is read from `req.getBody` directly. -/
def retryRoundTripper (c : Client) (req : Request)
    (rt : Nat → Option Response × Option GoError)
    (ctxPre ctxWait : Nat → Bool) (ctxErr : GoError) : RunResult :=
  retryLoopFrom c req rt ctxPre ctxWait ctxErr none none 0 [] 0
    (c.retryOpts.maxAttempts + 1)

/-- The middleware application loop of `Client.Do`
(`for i := len(c.middlewares) - 1; i >= 0; i-- { finalRT = c.middlewares[i](finalRT) }`):
starting from the base transport, wrappers are applied from the last
registered to the first, so the result is
`m₀ (m₁ (… (m_{k-1} transport)))` — exactly a right fold. -/
def applyMiddlewares {RT : Type} (middlewares : List (RT → RT)) (transport : RT) : RT :=
  middlewares.foldr (fun m acc => m acc) transport

/-- The chain assembly of `Client.Do` (httpc.go:694-726 / part_001:700-718),
abstracted over the round-tripper type: apply the middlewares to the base
transport, wrap with the logging round-tripper when a dump-log function is
set, wrap with the retry round-tripper when `MaxAttempts > 0`.  The final
round-tripper's `RoundTrip` is then invoked on the request. -/
def Do {RT : Type} (middlewares : List (RT → RT)) (logEnabled : Bool)
    (logRT : RT → RT) (maxAttempts : Nat) (retryRT : RT → RT)
    (transport : RT) : RT :=
  let finalRT := applyMiddlewares middlewares transport
  let finalRT := if logEnabled then logRT finalRT else finalRT
  if maxAttempts > 0 then retryRT finalRT else finalRT

/-- A tracing round-tripper used to observe composition order: a
round-tripper is represented by the list of wrapper tags from the outermost
layer inwards, and `tagWrap t` is a wrapper that records its tag outside
the layers it wraps. -/
def tagWrap (tag : String) : List String → List String :=
  fun inner => tag :: inner

/-- `http.Header` as an association list from (canonical) field names to
value lists.  The builder only ever stores canonical keys such as
`"User-Agent"`, so MIME canonicalization is omitted. -/
def Header : Type := List (String × List String)

/-- `http.Header.Get`: the first value of the field, or `""` when the field
is absent or has no values. -/
def headerGet (h : Header) (key : String) : String :=
  match h.find? (fun kv => kv.1 == key) with
  | some (_, v :: _) => v
  | _ => ""

/-- `http.Header.Set`: replace the field's values with the single given
value. -/
def headerSet (h : Header) (key value : String) : Header :=
  (key, [value]) :: h.filter (fun kv => kv.1 != key)

/-- The fields of `RequestBuilder` consulted by the header-finalization
step of `Build`; `userAgent` is `rb.client.userAgent`. -/
structure RequestBuilder where
  userAgent : String
  header : Header
  noDefaultHeaders : Bool

/-- The header portion of `RequestBuilder.Build` on its successful path
(httpc.go:637-662 / part_001:663-689): `http.NewRequestWithContext` creates
a request with an empty header map, `for k, v := range rb.header
{ req.Header[k] = v }` makes it equal to `rb.header`, and then the default
`User-Agent` is set exactly when `noDefaultHeaders` is unset and
`req.Header.Get("User-Agent")` is empty.  URL parsing, query encoding and
the body are orthogonal to the header result and omitted. -/
def RequestBuilder.Build (rb : RequestBuilder) : Header :=
  let h := rb.header
  if !rb.noDefaultHeaders && headerGet h "User-Agent" == "" then
    headerSet h "User-Agent" rb.userAgent
  else h

/-- Split a character list at its unique colon; `none` when there is no
colon or more than one. -/
def splitHostPortAux : List Char → Option (List Char × List Char)
  | [] => none
  | c :: cs =>
    if c = ':' then
      if cs.contains ':' then none else some ([], cs)
    else
      match splitHostPortAux cs with
      | some hp => some (c :: hp.1, hp.2)
      | none => none

/-- `net.SplitHostPort` on the common unbracketed forms: exactly one colon
splits host from port; an address with no colon (`missing port`) or with
several unbracketed colons (`too many colons`) is an error, modelled as
`none`.  Bracketed IPv6 literals are outside this embedding; no claim
instantiates them. -/
def splitHostPort (address : String) : Option (String × String) :=
  (splitHostPortAux address.data).map fun hp => (String.mk hp.1, String.mk hp.2)

/-- `net.JoinHostPort`: bracket the host when it contains a colon. -/
def joinHostPort (host port : String) : String :=
  String.mk
    ((if host.data.contains ':' then '[' :: host.data ++ [']'] else host.data)
      ++ ':' :: port.data)

/-- The fields of `customDialer` (resolver.go) consulted by `DialContext`,
with its two I/O collaborators as abstract functions for a fixed context:
`defaultDial network address` models `d.defaultDialer.DialContext`, and
`resolve host` models `d.resolveWithCustomDNS` (every failure of that
helper — no DNS server reachable, lookup error — is an `error` outcome).
A connection is an opaque `String` handle. -/
structure CustomDialer where
  defaultDial : String → String → Except GoError String
  resolve : String → Except GoError (List String)

/-- The candidate-connection loop of `customDialer.DialContext`
(resolver.go:39-63): try each resolved IP in order, return the first
successful connection; remember only the first dial error; after the loop,
a missing first error means the candidate list was empty (`noAddrs`),
otherwise the first error is returned. -/
def dialCandidates (d : CustomDialer) (network port host : String) :
    List String → Option GoError → Except GoError String
  | [], firstDialErr =>
    match firstDialErr with
    | none => .error (.noAddrs host)
    | some e => .error e
  | ip :: rest, firstDialErr =>
    match d.defaultDial network (joinHostPort ip port) with
    | .ok conn => .ok conn
    | .error dialErr =>
      dialCandidates d network port host rest
        (match firstDialErr with
         | none => some dialErr
         | some e => some e)

/-- `customDialer.DialContext` (resolver.go:20-64): malformed addresses and
failed custom resolution fall back to the default dialer on the original
`network, address`; successful resolution dials the candidates. -/
def CustomDialer.DialContext (d : CustomDialer) (network address : String) :
    Except GoError String :=
  match splitHostPort address with
  | none => d.defaultDial network address
  | some (host, port) =>
    match d.resolve host with
    | .error _ => d.defaultDial network address
    | .ok ips => dialCandidates d network port host ips none

/-- Spec-side predicate, written from the claim's words only: a transient
network error is a connection failure or an I/O timeout.  Used to compare
the spec's description of retry eligibility with the source's
`shouldRetry`. -/
def specTransientNetworkError : GoError → Bool
  | .netConnFailure => true
  | .netIOTimeout => true
  | _ => false

/-! Concrete instances used to instantiate the theorems below. -/

/-- Identity jitter scaling; consulted by no instantiation because every
instance runs with `jitter = false`. -/
def idScale : Int → Nat → Int := fun delay _ => delay

/-- `defaultRetryOptions` of `httpc.go`: `MaxAttempts 2`, `BaseDelay 100ms`,
`MaxDelay 1s`, `RetryStatuses [429, 500, 502, 503, 504]`, no jitter
(delays in nanoseconds). -/
def defaultRetryOptions : RetryOptions :=
  ⟨2, 100000000, 1000000000, [429, 500, 502, 503, 504], false⟩

/-- A client with the default retry options. -/
def cDefault : Client := ⟨defaultRetryOptions, idScale, "Touka HTTP Client/v0"⟩

/-- A client with `MaxAttempts 1` and `RetryStatuses [429, 503]`. -/
def cOneAttempt : Client :=
  ⟨⟨1, 100000000, 1000000000, [429, 503], false⟩, idScale, "Touka HTTP Client/v0"⟩

/-- A `GetBody` capability whose every call succeeds. -/
def regenAlwaysOK : Nat → Option GoError := fun _ => none

/-- A request with no body and no `GetBody` (e.g. a plain GET built from a
nil body). -/
def reqBodyless : Request := ⟨false, none⟩

/-- A request carrying a body whose reader is not regenerable
(`GetBody == nil`). -/
def reqBodyNoRegen : Request := ⟨true, none⟩

/-- A request carrying a body with a `GetBody` capability. -/
def reqWithRegen : Request := ⟨true, some regenAlwaysOK⟩

/-- A transport whose every attempt fails with a connection error. -/
def rtAlwaysConnFailure : Nat → Option Response × Option GoError :=
  fun _ => (none, some .netConnFailure)

/-- A transport whose every attempt yields `503` with `Retry-After: 2`. -/
def rtAlways503RetryAfter2 : Nat → Option Response × Option GoError :=
  fun _ => (some ⟨503, some "2"⟩, none)

/-- A transport whose every attempt yields `503` with no `Retry-After`. -/
def rtAlways503 : Nat → Option Response × Option GoError :=
  fun _ => (some ⟨503, none⟩, none)

/-- A context that is never observed as done. -/
def ctxNever : Nat → Bool := fun _ => false

/-- A dialer whose custom resolution always fails and whose default dial
always succeeds, tagging the connection with the address it was given. -/
def sysDialer : CustomDialer :=
  ⟨fun _ address => .ok ("sys:" ++ address), fun _ => .error .netDNSNotFound⟩

/-- A dialer resolving to two candidates of which only the second accepts a
connection. -/
def twoIPDialer : CustomDialer :=
  ⟨fun _ address => if address == "10.0.0.2:80" then .ok "conn2" else .error (.dialFailure address),
   fun _ => .ok ["10.0.0.1", "10.0.0.2"]⟩

/-- A builder whose caller set a non-empty `User-Agent` via `SetHeader`. -/
def rbCallerUA : RequestBuilder :=
  ⟨"Touka HTTP Client/v0", headerSet [] "User-Agent" "curl/8.0", false⟩

/-- A builder whose caller set the `User-Agent` header to the empty string
via `SetHeader`. -/
def rbEmptyUA : RequestBuilder :=
  ⟨"Touka HTTP Client/v0", headerSet [] "User-Agent" "", false⟩

/-! Theorems. -/

/-- C1 counterexample: with the default retry configuration
(`MaxAttempts = 2`) and a bodyless request (hence `GetBody == nil`), a
transport failing every attempt with a connection error — a retry-eligible
outcome — yields exactly 1 round-trip call and the plain connection error,
not the `2 + 1` calls and max-retries-exceeded outcome the claim states:
the loop breaks before attempt 1 because `bodyReaderFunc` is nil. -/
theorem C1_counterexample :
    retryRoundTripper cDefault reqBodyless rtAlwaysConnFailure ctxNever ctxNever .ctxCanceled =
      ⟨none, some .netConnFailure, 1, [100000000]⟩ ∧
    (1 : Nat) ≠ cDefault.retryOpts.maxAttempts + 1 := by
  constructor
  · rfl
  · decide

/-- C2 counterexample: with two middlewares, logging enabled and
`MaxAttempts = 1`, the assembled chain is, outermost first, retry, logging,
the FIRST-registered middleware, the second, the transport — not the order
with the first-registered middleware innermost that the claim states
(the middleware loop of `Do` applies them in reverse index order precisely
so that the first one ends up outermost). -/
theorem C2_counterexample :
    Do [tagWrap "m0", tagWrap "m1"] true (tagWrap "log") 1 (tagWrap "retry") ["transport"] =
      ["retry", "log", "m0", "m1", "transport"] ∧
    ["retry", "log", "m0", "m1", "transport"] ≠ ["retry", "log", "m1", "m0", "transport"] := by
  constructor
  · rfl
  · decide

/-- C3: divergence of the code from the claim at the failing input.  A
retryable `503` (not `429`) response carrying `Retry-After: 2` makes the
executor wait 2s: `retryRoundTripper` consults `calculateRetryAfter` for
every response regardless of status, so the header overrides the backoff
for non-429 statuses as well, while the claim (and the repository's README
and the comment on `calculateRetryAfter` itself) say the override applies
only to `429` and that other retryable responses wait the exponential
value, here 100ms. -/
theorem C3_code_divergence :
    (retryRoundTripper cOneAttempt reqWithRegen rtAlways503RetryAfter2
        ctxNever ctxNever .ctxCanceled).delays = [2000000000] ∧
    calculateExponentialBackoff cOneAttempt 0 false = 100000000 ∧
    (2000000000 : Int) ≠ 100000000 := by
  refine ⟨by rfl, by rfl, by decide⟩

/-- C4: divergence of the code from the claim at the failing input.  With
jitter disabled, `baseDelay = 100ms`, `maxDelay = 1s`, the code's
`calculateExponentialBackoff` does produce the claimed sequence
`100ms, 200ms, 400ms, 800ms, 1s, 1s` — but for retry-eligible `503`
responses the waited delays are `[100ms, 100ms]`, not `[100ms, 200ms]`:
`calculateRetryAfter` returns `BaseDelay` for any response without a
(valid) `Retry-After` header, and the loop only falls back to exponential
backoff when that value is `≤ 0`, i.e. effectively only for nil responses
(network errors). -/
theorem C4_code_divergence :
    (retryRoundTripper cDefault reqWithRegen rtAlways503
        ctxNever ctxNever .ctxCanceled).delays = [100000000, 100000000] ∧
    (List.range 6).map (fun a => calculateExponentialBackoff cDefault a false) =
      [100000000, 200000000, 400000000, 800000000, 1000000000, 1000000000] ∧
    ([100000000, 100000000] : List Int) ≠ [100000000, 200000000] := by
  refine ⟨by rfl, by decide, by decide⟩

/-- C5 counterexample: at exhaustion (`MaxAttempts = 1`, both attempts
failing with a connection error, regenerable body), the returned error is
the bare `ErrMaxRetriesExceeded` sentinel, and `errors.Is` cannot recover
the last transport error from it — `lastErr` is overwritten, not
wrapped. -/
theorem C5_counterexample :
    (retryRoundTripper cOneAttempt reqWithRegen rtAlwaysConnFailure
        ctxNever ctxNever .ctxCanceled).err = some .errMaxRetriesExceeded ∧
    errIs .errMaxRetriesExceeded .netConnFailure = false := by
  refine ⟨by rfl, by decide⟩

/-- C7 counterexample: a permanent DNS-not-found failure implements
`net.Error`, so `shouldRetry` accepts it, although it is not a transient
network error (a connection failure or an I/O timeout) as the claim
requires; the claim's "only if" direction fails. -/
theorem C7_counterexample :
    shouldRetry cDefault none (some .netDNSNotFound) = true ∧
    specTransientNetworkError .netDNSNotFound = false := by
  refine ⟨by decide, by decide⟩

/-- C10 counterexample: a caller that sets `User-Agent` to the empty string
via `SetHeader` does not see that value on the built request — `Build`
tests `req.Header.Get("User-Agent") == ""`, which cannot distinguish an
empty-valued header from an absent one, so the default is applied. -/
theorem C10_counterexample :
    headerGet (RequestBuilder.Build rbEmptyUA) "User-Agent" = "Touka HTTP Client/v0" ∧
    "Touka HTTP Client/v0" ≠ "" := by
  refine ⟨by rfl, by decide⟩

/-! Helper lemmas about the retry loop. -/

/-- `finishRun` returns the accumulated call count unchanged. -/
theorem finishRun_calls (r : Option Response) (e : Option GoError) (k : Nat) (d : List Int) :
    (finishRun r e k d).calls = k := by
  cases e <;> rfl

/-- `finishRun` returns the last response unchanged. -/
theorem finishRun_resp (r : Option Response) (e : Option GoError) (k : Nat) (d : List Int) :
    (finishRun r e k d).resp = r := by
  cases e <;> rfl

/-- `finishRun` wraps a present last error with `wrapError`. -/
theorem finishRun_err_some (r : Option Response) (e : GoError) (k : Nat) (d : List Int) :
    (finishRun r (some e) k d).err = some (wrapError e) := rfl

/-- The `ErrMaxRetriesExceeded` sentinel is neither a context-deadline error
nor a `net.Error`, so `wrapError` returns it unchanged. -/
theorem wrapError_maxRetries : wrapError .errMaxRetriesExceeded = .errMaxRetriesExceeded := rfl

/-- Exhaustion invariant of the retry loop: starting at iteration `attempt`
with `fuel` iterations left (`attempt + fuel = MaxAttempts + 1`), with a
regenerable body whose regeneration always succeeds, a context never
observed as done, and every attempt's outcome retry-eligible, the loop
performs one round-trip per remaining iteration, ends with
`ErrMaxRetriesExceeded`, and reports the final attempt's response. -/
theorem retry_exhaustion_loop (c : Client) (req : Request)
    (rt : Nat → Option Response × Option GoError)
    (ctxPre ctxWait : Nat → Bool) (ctxErr : GoError) (f : Nat → Option GoError)
    (hgb : req.getBody = some f) (hf : ∀ a, f a = none)
    (hpre : ∀ a, ctxPre a = false) (hwait : ∀ a, ctxWait a = false)
    (helig : ∀ a, shouldRetry c (rt a).1 (rt a).2 = true) :
    ∀ (fuel attempt : Nat) (lastResp : Option Response) (lastErr : Option GoError)
      (calls : Nat) (delays : List Int),
      attempt + fuel = c.retryOpts.maxAttempts + 1 → 1 ≤ fuel →
      (retryLoopFrom c req rt ctxPre ctxWait ctxErr lastResp lastErr calls delays attempt fuel).calls
          = calls + fuel ∧
      (retryLoopFrom c req rt ctxPre ctxWait ctxErr lastResp lastErr calls delays attempt fuel).err
          = some .errMaxRetriesExceeded ∧
      (retryLoopFrom c req rt ctxPre ctxWait ctxErr lastResp lastErr calls delays attempt fuel).resp
          = (rt c.retryOpts.maxAttempts).1 := by
  intro fuel
  induction fuel with
  | zero =>
    intro attempt lastResp lastErr calls delays hinv hge
    omega
  | succ fuel ih =>
    intro attempt lastResp lastErr calls delays hinv hge
    rw [retryLoopFrom]
    simp only [hgb, hf, hpre, hwait, helig, ite_self, not_true, if_false, Bool.false_eq_true,
      if_neg, decide_True]
    by_cases hmax : attempt ≥ c.retryOpts.maxAttempts
    · have ha : attempt = c.retryOpts.maxAttempts := by omega
      have hfuel : fuel = 0 := by omega
      subst hfuel
      rw [if_pos hmax, ha]
      refine ⟨finishRun_calls _ _ _ _, ?_, finishRun_resp _ _ _ _⟩
      rw [finishRun_err_some, wrapError_maxRetries]
    · rw [if_neg hmax]
      have h := ih (attempt + 1) (rt attempt).1 (rt attempt).2 (calls + 1)
        (delays ++ [retryDelay c (rt attempt).1 attempt]) (by omega) (by omega)
      refine ⟨?_, h.2.1, h.2.2⟩
      rw [h.1]
      omega

/-! Claim theorems for the retry executor. -/

/-- C1 (amended): for every retry configuration with `MaxAttempts = n > 0`
and every request that carries a body-regeneration capability whose calls
all succeed, if the context is never observed cancelled and every attempt's
outcome is retry-eligible, the retry executor performs exactly `n + 1`
round-trip calls and terminates exhausted with the max-retries-exceeded
error.  (The capability hypothesis is what the counterexample forces: a
request without `GetBody` stops after one attempt.) -/
theorem C1_amended_exhaustion (c : Client) (req : Request)
    (rt : Nat → Option Response × Option GoError)
    (ctxPre ctxWait : Nat → Bool) (ctxErr : GoError) (f : Nat → Option GoError)
    (_hn : 0 < c.retryOpts.maxAttempts)
    (hgb : req.getBody = some f) (hf : ∀ a, f a = none)
    (hpre : ∀ a, ctxPre a = false) (hwait : ∀ a, ctxWait a = false)
    (helig : ∀ a, shouldRetry c (rt a).1 (rt a).2 = true) :
    (retryRoundTripper c req rt ctxPre ctxWait ctxErr).calls = c.retryOpts.maxAttempts + 1 ∧
    (retryRoundTripper c req rt ctxPre ctxWait ctxErr).err = some .errMaxRetriesExceeded := by
  have h := retry_exhaustion_loop c req rt ctxPre ctxWait ctxErr f hgb hf hpre hwait helig
    (c.retryOpts.maxAttempts + 1) 0 none none 0 [] (by omega) (by omega)
  rw [retryRoundTripper]
  exact ⟨by rw [h.1]; omega, h.2.1⟩

/-- C1 witness: with the default options (`MaxAttempts = 2`), a request
with a regenerable body and a transport failing every attempt with a
connection error makes exactly 3 round-trip calls and ends with the
max-retries-exceeded error. -/
theorem C1_amended_exhaustion_witness :
    (retryRoundTripper cDefault reqWithRegen rtAlwaysConnFailure ctxNever ctxNever
        .ctxCanceled).calls = 3 ∧
    (retryRoundTripper cDefault reqWithRegen rtAlwaysConnFailure ctxNever ctxNever
        .ctxCanceled).err = some .errMaxRetriesExceeded := by
  have h := C1_amended_exhaustion cDefault reqWithRegen rtAlwaysConnFailure ctxNever ctxNever
    .ctxCanceled regenAlwaysOK (by decide) rfl (fun _ => rfl) (fun _ => rfl) (fun _ => rfl)
    (fun _ => rfl)
  exact h

/-- C5 (amended): when the retry budget is exhausted, the returned error is
exactly the `ErrMaxRetriesExceeded` sentinel — the last transport error is
discarded, not wrapped (nothing is recoverable from the sentinel by
`errors.Is` except the sentinel itself) — and the last attempt's response,
when present, is returned alongside it. -/
theorem C5_amended_exhausted_error (c : Client) (req : Request)
    (rt : Nat → Option Response × Option GoError)
    (ctxPre ctxWait : Nat → Bool) (ctxErr : GoError) (f : Nat → Option GoError)
    (hgb : req.getBody = some f) (hf : ∀ a, f a = none)
    (hpre : ∀ a, ctxPre a = false) (hwait : ∀ a, ctxWait a = false)
    (helig : ∀ a, shouldRetry c (rt a).1 (rt a).2 = true) :
    (retryRoundTripper c req rt ctxPre ctxWait ctxErr).err = some .errMaxRetriesExceeded ∧
    (retryRoundTripper c req rt ctxPre ctxWait ctxErr).resp = (rt c.retryOpts.maxAttempts).1 ∧
    (∀ e : GoError, errIs .errMaxRetriesExceeded e = true → e = .errMaxRetriesExceeded) := by
  have h := retry_exhaustion_loop c req rt ctxPre ctxWait ctxErr f hgb hf hpre hwait helig
    (c.retryOpts.maxAttempts + 1) 0 none none 0 [] (by omega) (by omega)
  rw [retryRoundTripper]
  refine ⟨h.2.1, h.2.2, ?_⟩
  intro e he
  simp only [errIs, Bool.or_eq_true, beq_iff_eq] at he
  rcases he with he | he
  · exact he.symm
  · cases he

/-- C5 witness: with `MaxAttempts = 1` and a transport answering `503` on
both attempts, exhaustion returns the sentinel together with the last
`503` response. -/
theorem C5_amended_exhausted_error_witness :
    (retryRoundTripper cOneAttempt reqWithRegen rtAlways503 ctxNever ctxNever
        .ctxCanceled).err = some .errMaxRetriesExceeded ∧
    (retryRoundTripper cOneAttempt reqWithRegen rtAlways503 ctxNever ctxNever
        .ctxCanceled).resp = some ⟨503, none⟩ := by
  have h := C5_amended_exhausted_error cOneAttempt reqWithRegen rtAlways503 ctxNever ctxNever
    .ctxCanceled regenAlwaysOK rfl (fun _ => rfl) (fun _ => rfl) (fun _ => rfl) (fun _ => rfl)
  exact ⟨h.1, h.2.1⟩

/-- C6: a request whose `GetBody` capability is absent performs exactly one
round-trip call, whatever `MaxAttempts` is and whatever the first attempt's
outcome is (the only assumption is that the context is not already done
before the first attempt, since then no attempt at all would run). -/
theorem C6_no_regenerator_single_attempt (c : Client) (req : Request)
    (rt : Nat → Option Response × Option GoError)
    (ctxPre ctxWait : Nat → Bool) (ctxErr : GoError)
    (_hbody : req.hasBody = true) (hgb : req.getBody = none) (hpre : ctxPre 0 = false) :
    (retryRoundTripper c req rt ctxPre ctxWait ctxErr).calls = 1 := by
  rw [retryRoundTripper, retryLoopFrom]
  simp only [hgb, hpre, gt_iff_lt, Nat.lt_irrefl, if_false, Bool.false_eq_true, ite_false]
  by_cases h5 : shouldRetry c (rt 0).1 (rt 0).2 = true
  · rw [if_neg (not_not_intro h5)]
    by_cases h6 : 0 ≥ c.retryOpts.maxAttempts
    · rw [if_pos h6]
      exact finishRun_calls _ _ _ _
    · rw [if_neg h6]
      by_cases h7 : ctxWait 0 = true
      · rw [if_pos h7]
      · rw [if_neg h7]
        obtain ⟨k, hk⟩ : ∃ k, c.retryOpts.maxAttempts = k + 1 :=
          ⟨c.retryOpts.maxAttempts - 1, by omega⟩
        rw [hk, retryLoopFrom]
        simp [hgb, finishRun_calls]
  · rw [if_pos h5]
    exact finishRun_calls _ _ _ _

/-- C6 witness: default options (`MaxAttempts = 2`), a body-carrying
request without `GetBody`, retryable `503` responses: exactly 1 call. -/
theorem C6_no_regenerator_single_attempt_witness :
    (retryRoundTripper cDefault reqBodyNoRegen rtAlways503 ctxNever ctxNever
        .ctxCanceled).calls = 1 :=
  C6_no_regenerator_single_attempt cDefault reqBodyNoRegen rtAlways503 ctxNever ctxNever
    .ctxCanceled rfl rfl rfl

/-- C2 (amended): with logging enabled and `MaxAttempts > 0`, the assembled
chain is the retry wrapper outermost, then the logging wrapper, then the
middlewares applied so that the FIRST-registered middleware is the
outermost of the middlewares (each wraps the fold of the remaining ones
over the base transport; the last-registered middleware is the one applied
closest to the transport). -/
theorem C2_amended_composition {RT : Type} (middlewares : List (RT → RT))
    (logRT retryRT : RT → RT) (transport : RT) (n : Nat) :
    Do middlewares true logRT (n + 1) retryRT transport =
      retryRT (logRT (applyMiddlewares middlewares transport)) ∧
    ∀ m : RT → RT, applyMiddlewares (m :: middlewares) transport =
      m (applyMiddlewares middlewares transport) := by
  constructor
  · simp [Do]
  · intro m
    rfl

/-- C2 witness: the composition equality at a concrete tracing
instantiation. -/
theorem C2_amended_composition_witness :
    Do [tagWrap "mw0", tagWrap "mw1"] true (tagWrap "log") 1 (tagWrap "retry") ["transport"] =
      tagWrap "retry" (tagWrap "log"
        (applyMiddlewares [tagWrap "mw0", tagWrap "mw1"] ["transport"])) :=
  (C2_amended_composition [tagWrap "mw0", tagWrap "mw1"] (tagWrap "log") (tagWrap "retry")
    ["transport"] 0).1

/-- For a response and no error, `shouldRetry` holds exactly when the
status code is listed in `RetryStatuses`. -/
theorem shouldRetry_status_mem (c : Client) (r : Response) :
    shouldRetry c (some r) none = true ↔ r.statusCode ∈ c.retryOpts.retryStatuses := by
  simp only [shouldRetry, List.any_eq_true, beq_iff_eq]
  constructor
  · rintro ⟨status, hmem, heq⟩
    rwa [heq]
  · intro hmem
    exact ⟨r.statusCode, hmem, rfl⟩

/-- C7 (amended): the retry-eligibility decision holds iff the attempt's
error satisfies the `net.Error` interface test of `isNetworkError` — any
network-classified error, transient or permanent, such as a DNS failure —
or there is no error and the response's status code is a member of
`RetryStatuses`; in particular a non-network error such as a malformed URL
is never eligible. -/
theorem C7_amended_eligibility (c : Client) (resp : Option Response) (err : Option GoError) :
    shouldRetry c resp err = true ↔
      ((∃ e, err = some e ∧ isNetworkError e = true) ∨
       (err = none ∧ ∃ r, resp = some r ∧ r.statusCode ∈ c.retryOpts.retryStatuses)) := by
  cases err with
  | some e => simp [shouldRetry]
  | none =>
    cases resp with
    | none => simp [shouldRetry]
    | some r =>
      rw [shouldRetry_status_mem]
      constructor
      · intro hmem
        exact Or.inr ⟨rfl, r, rfl, hmem⟩
      · rintro (⟨e, he, _⟩ | ⟨_, r2, hr2, hmem⟩)
        · exact absurd he (by simp)
        · cases hr2
          exact hmem

/-- C7 witness: a `503` response with the default statuses is eligible via
the status-membership arm of the equivalence. -/
theorem C7_amended_eligibility_witness :
    shouldRetry cDefault (some ⟨503, none⟩) none = true :=
  (C7_amended_eligibility cDefault (some ⟨503, none⟩) none).mpr
    (Or.inr ⟨rfl, ⟨503, none⟩, rfl, by decide⟩)

/-! Claim theorems for the resilient dialer. -/

/-- C8: when the address is malformed (`SplitHostPort` fails) or custom
resolution fails (no DNS server reachable or the lookup errors),
`DialContext` returns exactly what the default dialer returns on the
original `network, address` — the fallback is a pure delegation, so it can
be no harder a failure than an unconfigured dialer. -/
theorem C8_fallback_refinement (d : CustomDialer) (network address : String)
    (h : splitHostPort address = none ∨
         ∃ host port e, splitHostPort address = some (host, port) ∧ d.resolve host = .error e) :
    d.DialContext network address = d.defaultDial network address := by
  rcases h with h | ⟨host, port, e, hsp, hres⟩
  · simp only [CustomDialer.DialContext, h]
  · simp only [CustomDialer.DialContext, hsp, hres]

/-- C8 witness: a dialer whose resolution always fails yields, on
`example.com:443`, exactly the default dialer's connection. -/
theorem C8_fallback_refinement_witness :
    sysDialer.DialContext "tcp" "example.com:443" = .ok "sys:example.com:443" := by
  have h := C8_fallback_refinement sysDialer "tcp" "example.com:443"
    (Or.inr ⟨"example.com", "443", .netDNSNotFound, by rfl, rfl⟩)
  rw [h]
  rfl

/-- The candidate loop returns the first successful connection, in list
order. -/
theorem dialCandidates_first_success (d : CustomDialer) (network port host : String) :
    ∀ (ips : List String) (acc : Option GoError) (i : Nat) (hi : i < ips.length) (conn : String),
      (∀ x ∈ ips.take i, ∃ e, d.defaultDial network (joinHostPort x port) = .error e) →
      d.defaultDial network (joinHostPort (ips.get ⟨i, hi⟩) port) = .ok conn →
      dialCandidates d network port host ips acc = .ok conn := by
  intro ips
  induction ips with
  | nil =>
    intro acc i hi
    exact absurd hi (by simp)
  | cons ip rest ih =>
    intro acc i hi conn hfail hok
    cases i with
    | zero =>
      have hok0 : d.defaultDial network (joinHostPort ip port) = .ok conn := hok
      rw [dialCandidates, hok0]
    | succ j =>
      obtain ⟨e, he⟩ := hfail ip (by simp)
      rw [dialCandidates, he]
      have hj : j < rest.length := by simpa using hi
      refine ih _ j hj conn ?_ hok
      intro x hx
      exact hfail x (by simp [hx])

/-- When every candidate fails, the candidate loop returns the error
already accumulated as first. -/
theorem dialCandidates_all_fail (d : CustomDialer) (network port host : String) :
    ∀ (ips : List String) (e0 : GoError),
      (∀ x ∈ ips, ∃ e, d.defaultDial network (joinHostPort x port) = .error e) →
      dialCandidates d network port host ips (some e0) = .error e0 := by
  intro ips
  induction ips with
  | nil =>
    intro e0 _
    rfl
  | cons ip rest ih =>
    intro e0 hfail
    obtain ⟨e, he⟩ := hfail ip (by simp)
    rw [dialCandidates, he]
    exact ih e0 (fun x hx => hfail x (by simp [hx]))

/-- C9: when custom resolution succeeds, (i) the candidates are attempted
in order and the first successful connection is returned, (ii) if every
candidate fails the FIRST dial error is returned, and (iii) an empty
candidate list yields the dedicated internal `noAddrs` error rather than a
dial or resolution failure. -/
theorem C9_candidate_dialing (d : CustomDialer) (network address host port : String)
    (ips : List String)
    (hsplit : splitHostPort address = some (host, port))
    (hres : d.resolve host = .ok ips) :
    (∀ (i : Nat) (hi : i < ips.length) (conn : String),
        (∀ x ∈ ips.take i, ∃ e, d.defaultDial network (joinHostPort x port) = .error e) →
        d.defaultDial network (joinHostPort (ips.get ⟨i, hi⟩) port) = .ok conn →
        d.DialContext network address = .ok conn) ∧
    (∀ (ip : String) (rest : List String) (e : GoError),
        ips = ip :: rest →
        (∀ x ∈ ips, ∃ e2, d.defaultDial network (joinHostPort x port) = .error e2) →
        d.defaultDial network (joinHostPort ip port) = .error e →
        d.DialContext network address = .error e) ∧
    (ips = [] → d.DialContext network address = .error (.noAddrs host)) := by
  have hdc : d.DialContext network address = dialCandidates d network port host ips none := by
    simp only [CustomDialer.DialContext, hsplit, hres]
  refine ⟨?_, ?_, ?_⟩
  · intro i hi conn hfail hok
    rw [hdc]
    exact dialCandidates_first_success d network port host ips none i hi conn hfail hok
  · intro ip rest e hips hfail hdial
    rw [hdc]
    subst hips
    rw [dialCandidates, hdial]
    exact dialCandidates_all_fail d network port host rest e
      (fun x hx => hfail x (by simp [hx]))
  · intro hips
    rw [hdc]
    subst hips
    rfl

/-- C9 witness: two candidates, the first refusing and the second
accepting: the second candidate's connection is returned. -/
theorem C9_candidate_dialing_witness :
    twoIPDialer.DialContext "tcp" "example.com:80" = .ok "conn2" := by
  have h := C9_candidate_dialing twoIPDialer "tcp" "example.com:80" "example.com" "80"
    ["10.0.0.1", "10.0.0.2"] (by rfl) rfl
  refine h.1 1 (by simp) "conn2" ?_ (by rfl)
  intro x hx
  have htake : List.take 1 ["10.0.0.1", "10.0.0.2"] = ["10.0.0.1"] := rfl
  rw [htake] at hx
  simp only [List.mem_singleton] at hx
  subst hx
  exact ⟨.dialFailure "10.0.0.1:80", rfl⟩

/-! Claim theorems for the request builder. -/

/-- `headerGet` reads back the value just written by `headerSet`. -/
theorem headerGet_headerSet (h : Header) (key value : String) :
    headerGet (headerSet h key value) key = value := by
  simp [headerGet, headerSet, List.find?]

/-- C10 (amended): `Build` leaves the headers untouched when
`NoDefaultHeaders` was called; a caller-supplied NON-empty `User-Agent`
survives `Build` exactly; and the default `User-Agent` is applied exactly
when `NoDefaultHeaders` was not called and `Get("User-Agent")` is empty —
which is the case both for an absent header and for one set to the empty
string (the correction the counterexample forces). -/
theorem C10_amended_user_agent (rb : RequestBuilder) (v : String) :
    (rb.noDefaultHeaders = true → rb.Build = rb.header) ∧
    (headerGet rb.header "User-Agent" = v → v ≠ "" →
      headerGet rb.Build "User-Agent" = v) ∧
    (rb.noDefaultHeaders = false → headerGet rb.header "User-Agent" = "" →
      headerGet rb.Build "User-Agent" = rb.userAgent) := by
  refine ⟨?_, ?_, ?_⟩
  · intro hnd
    simp [RequestBuilder.Build, hnd]
  · intro hv hne
    have hb : (headerGet rb.header "User-Agent" == "") = false := by
      rw [hv]
      exact beq_eq_false_iff_ne.mpr hne
    simp only [RequestBuilder.Build, hb, Bool.and_false, Bool.false_eq_true, if_false]
    exact hv
  · intro hnd h0
    simp [RequestBuilder.Build, hnd, h0, headerGet_headerSet]

/-- C10 witness: a caller-supplied `User-Agent: curl/8.0` reaches the built
request unchanged. -/
theorem C10_amended_user_agent_witness :
    headerGet (RequestBuilder.Build rbCallerUA) "User-Agent" = "curl/8.0" :=
  (C10_amended_user_agent rbCallerUA "curl/8.0").2.1 (by rfl) (by decide)

end Httpc
